import Mathlib

/-!
Verification of the startup compatibility-flag resolver of
`procedural-3d-maze` (`src/src-tauri/src/main.rs`).

The resolver runs once at process start.  On Linux it performs three
conditional writes to the process environment, in this order:

1. if `WEBKIT_DISABLE_DMABUF_RENDERER` is absent, set it to `"1"`;
2. if `P3DM_WEBKIT_NO_COMPOSITING` is present and
   `WEBKIT_DISABLE_COMPOSITING_MODE` is absent, set the latter to `"1"`;
3. if `P3DM_SOFTWARE_GL` is present and `LIBGL_ALWAYS_SOFTWARE` is absent,
   set the latter to `"1"`.

On every other platform it does nothing.  We model the environment as a
total function from keys to optional values and each conditional block as
a function on environments.
-/

/-- A process environment: each key is either absent (`none`) or present
with a string value. -/
def Env : Type := String → Option String

/-- `std::env::var_os`: look a key up in the environment. -/
def var_os (e : Env) (k : String) : Option String := e k

/-- `std::env::set_var`: set a key to a value, leaving other keys alone. -/
def set_var (e : Env) (k v : String) : Env :=
  fun q => if q = k then some v else e q

/-- Key of the DMABUF-renderer toggle (spec name `RENDER_DISABLE_DMABUF`). -/
def WEBKIT_DISABLE_DMABUF_RENDERER : String := "WEBKIT_DISABLE_DMABUF_RENDERER"

/-- Key of the compositing toggle (spec name `RENDER_DISABLE_COMPOSITING`). -/
def WEBKIT_DISABLE_COMPOSITING_MODE : String := "WEBKIT_DISABLE_COMPOSITING_MODE"

/-- Key of the software-GL toggle (spec name `RENDER_FORCE_SOFTWARE_GL`). -/
def LIBGL_ALWAYS_SOFTWARE : String := "LIBGL_ALWAYS_SOFTWARE"

/-- Opt-in trigger for disabling compositing (spec name `APP_NO_COMPOSITING`). -/
def P3DM_WEBKIT_NO_COMPOSITING : String := "P3DM_WEBKIT_NO_COMPOSITING"

/-- Opt-in trigger for software GL (spec name `APP_SOFTWARE_GL`). -/
def P3DM_SOFTWARE_GL : String := "P3DM_SOFTWARE_GL"

/-- First conditional block of `main` (lines 13-15): default the DMABUF
renderer toggle to `"1"` when it is absent. -/
def step_dmabuf (e : Env) : Env :=
  if (var_os e WEBKIT_DISABLE_DMABUF_RENDERER).isNone then
    set_var e WEBKIT_DISABLE_DMABUF_RENDERER "1"
  else e

/-- Second conditional block of `main` (lines 18-22): opt-in disabling of
compositing mode. -/
def step_compositing (e : Env) : Env :=
  if (var_os e P3DM_WEBKIT_NO_COMPOSITING).isSome
      && (var_os e WEBKIT_DISABLE_COMPOSITING_MODE).isNone then
    set_var e WEBKIT_DISABLE_COMPOSITING_MODE "1"
  else e

/-- Third conditional block of `main` (lines 25-27): opt-in forcing of
software OpenGL. -/
def step_software_gl (e : Env) : Env :=
  if (var_os e P3DM_SOFTWARE_GL).isSome
      && (var_os e LIBGL_ALWAYS_SOFTWARE).isNone then
    set_var e LIBGL_ALWAYS_SOFTWARE "1"
  else e

/-- The compile-time platform (`cfg(target_os)`).  Only `linux` matters to
the resolver; the other constructors stand for every other target. -/
inductive Platform
  | linux
  | windows
  | macos
  | other
  deriving DecidableEq

/-- Body of the `cfg(target_os = "linux")` block of `main`: the three
conditional writes in source order. -/
def linux_resolve (e : Env) : Env :=
  step_software_gl (step_compositing (step_dmabuf e))

/-- The whole resolver: on Linux run the three conditional blocks, on any
other platform the block is compiled out and the environment is untouched. -/
def resolve_and_apply : Platform → Env → Env
  | Platform.linux, e => linux_resolve e
  | Platform.windows, e => e
  | Platform.macos, e => e
  | Platform.other, e => e

/-- The empty environment: every key absent. -/
def empty_env : Env := fun _ => none

/-! ### Pointwise behaviour of the three steps -/

theorem set_var_self (e : Env) (k v : String) : set_var e k v k = some v := by
  simp [set_var]

theorem set_var_other (e : Env) (k v q : String) (h : q ≠ k) :
    set_var e k v q = e q := by
  simp [set_var, h]

theorem step_dmabuf_other (e : Env) (q : String)
    (h : q ≠ WEBKIT_DISABLE_DMABUF_RENDERER) : step_dmabuf e q = e q := by
  unfold step_dmabuf
  split
  · exact set_var_other e _ _ q h
  · rfl

theorem step_dmabuf_self (e : Env) :
    step_dmabuf e WEBKIT_DISABLE_DMABUF_RENDERER =
      some ((e WEBKIT_DISABLE_DMABUF_RENDERER).getD "1") := by
  unfold step_dmabuf var_os
  cases h : e WEBKIT_DISABLE_DMABUF_RENDERER <;> simp [h, set_var]

theorem step_compositing_other (e : Env) (q : String)
    (h : q ≠ WEBKIT_DISABLE_COMPOSITING_MODE) : step_compositing e q = e q := by
  unfold step_compositing
  split
  · exact set_var_other e _ _ q h
  · rfl

theorem step_compositing_self (e : Env) :
    step_compositing e WEBKIT_DISABLE_COMPOSITING_MODE =
      if (e P3DM_WEBKIT_NO_COMPOSITING).isSome
          && (e WEBKIT_DISABLE_COMPOSITING_MODE).isNone then some "1"
      else e WEBKIT_DISABLE_COMPOSITING_MODE := by
  unfold step_compositing var_os
  split <;> simp_all [set_var]

theorem step_software_gl_other (e : Env) (q : String)
    (h : q ≠ LIBGL_ALWAYS_SOFTWARE) : step_software_gl e q = e q := by
  unfold step_software_gl
  split
  · exact set_var_other e _ _ q h
  · rfl

theorem step_software_gl_self (e : Env) :
    step_software_gl e LIBGL_ALWAYS_SOFTWARE =
      if (e P3DM_SOFTWARE_GL).isSome && (e LIBGL_ALWAYS_SOFTWARE).isNone then
        some "1"
      else e LIBGL_ALWAYS_SOFTWARE := by
  unfold step_software_gl var_os
  split <;> simp_all [set_var]

/-! ### Pointwise behaviour of the whole Linux pass -/

theorem linux_resolve_apply (e : Env) (k : String) :
    linux_resolve e k =
      if k = WEBKIT_DISABLE_DMABUF_RENDERER then
        some ((e WEBKIT_DISABLE_DMABUF_RENDERER).getD "1")
      else if k = WEBKIT_DISABLE_COMPOSITING_MODE then
        if (e P3DM_WEBKIT_NO_COMPOSITING).isSome
            && (e WEBKIT_DISABLE_COMPOSITING_MODE).isNone then some "1"
        else e WEBKIT_DISABLE_COMPOSITING_MODE
      else if k = LIBGL_ALWAYS_SOFTWARE then
        if (e P3DM_SOFTWARE_GL).isSome && (e LIBGL_ALWAYS_SOFTWARE).isNone then
          some "1"
        else e LIBGL_ALWAYS_SOFTWARE
      else e k := by
  unfold linux_resolve
  by_cases h1 : k = WEBKIT_DISABLE_DMABUF_RENDERER
  · subst h1
    rw [step_software_gl_other _ _ (by decide), step_compositing_other _ _ (by decide),
      step_dmabuf_self, if_pos rfl]
  · by_cases h2 : k = WEBKIT_DISABLE_COMPOSITING_MODE
    · subst h2
      rw [step_software_gl_other _ _ (by decide), step_compositing_self,
        step_dmabuf_other _ _ (by decide), step_dmabuf_other _ _ (by decide),
        if_neg h1, if_pos rfl]
    · by_cases h3 : k = LIBGL_ALWAYS_SOFTWARE
      · subst h3
        rw [step_software_gl_self, step_compositing_other _ _ (by decide),
          step_dmabuf_other _ _ (by decide),
          step_compositing_other _ _ (by decide),
          step_dmabuf_other _ _ (by decide),
          if_neg h1, if_neg h2, if_pos rfl]
      · rw [step_software_gl_other _ _ h3, step_compositing_other _ _ h2,
          step_dmabuf_other _ _ h1, if_neg h1, if_neg h2, if_neg h3]

theorem linux_resolve_dmabuf (e : Env) :
    linux_resolve e WEBKIT_DISABLE_DMABUF_RENDERER =
      some ((e WEBKIT_DISABLE_DMABUF_RENDERER).getD "1") := by
  rw [linux_resolve_apply, if_pos rfl]

theorem linux_resolve_compositing (e : Env) :
    linux_resolve e WEBKIT_DISABLE_COMPOSITING_MODE =
      if (e P3DM_WEBKIT_NO_COMPOSITING).isSome
          && (e WEBKIT_DISABLE_COMPOSITING_MODE).isNone then some "1"
      else e WEBKIT_DISABLE_COMPOSITING_MODE := by
  rw [linux_resolve_apply, if_neg (by decide), if_pos rfl]

theorem linux_resolve_software_gl (e : Env) :
    linux_resolve e LIBGL_ALWAYS_SOFTWARE =
      if (e P3DM_SOFTWARE_GL).isSome && (e LIBGL_ALWAYS_SOFTWARE).isNone then
        some "1"
      else e LIBGL_ALWAYS_SOFTWARE := by
  rw [linux_resolve_apply, if_neg (by decide), if_neg (by decide), if_pos rfl]

theorem linux_resolve_untouched (e : Env) (k : String)
    (h1 : k ≠ WEBKIT_DISABLE_DMABUF_RENDERER)
    (h2 : k ≠ WEBKIT_DISABLE_COMPOSITING_MODE)
    (h3 : k ≠ LIBGL_ALWAYS_SOFTWARE) : linux_resolve e k = e k := by
  rw [linux_resolve_apply, if_neg h1, if_neg h2, if_neg h3]

theorem linux_resolve_trigger_nc (e : Env) :
    linux_resolve e P3DM_WEBKIT_NO_COMPOSITING = e P3DM_WEBKIT_NO_COMPOSITING :=
  linux_resolve_untouched e _ (by decide) (by decide) (by decide)

theorem linux_resolve_trigger_gl (e : Env) :
    linux_resolve e P3DM_SOFTWARE_GL = e P3DM_SOFTWARE_GL :=
  linux_resolve_untouched e _ (by decide) (by decide) (by decide)

/-! ### Claims -/

/-- Claim C1: on Linux, for every initial environment in which
`WEBKIT_DISABLE_DMABUF_RENDERER` is absent, after the resolver runs that
key is present with value `"1"`. -/
theorem C1_dmabuf_default (e : Env)
    (h : e WEBKIT_DISABLE_DMABUF_RENDERER = none) :
    resolve_and_apply Platform.linux e WEBKIT_DISABLE_DMABUF_RENDERER =
      some "1" := by
  show linux_resolve e WEBKIT_DISABLE_DMABUF_RENDERER = some "1"
  rw [linux_resolve_dmabuf, h]
  rfl

/-- Concrete instance of C1 at the empty environment. -/
theorem C1_dmabuf_default_w :
    empty_env WEBKIT_DISABLE_DMABUF_RENDERER = none ∧
    resolve_and_apply Platform.linux empty_env WEBKIT_DISABLE_DMABUF_RENDERER =
      some "1" :=
  ⟨rfl, C1_dmabuf_default empty_env rfl⟩

/-- An environment in which `WEBKIT_DISABLE_COMPOSITING_MODE` is already
present with value `"1"` and every other key is absent. -/
def env_comp_one : Env := set_var empty_env WEBKIT_DISABLE_COMPOSITING_MODE "1"

/-- Claim C2, counterexample: with `WEBKIT_DISABLE_COMPOSITING_MODE` already
`"1"` and the trigger absent, the key still holds `"1"` after the run, yet
the trigger was not present, so the biconditional of the claim fails. -/
theorem C2_compositing_cex :
    ¬ (resolve_and_apply Platform.linux env_comp_one
          WEBKIT_DISABLE_COMPOSITING_MODE = some "1" ↔
        (env_comp_one P3DM_WEBKIT_NO_COMPOSITING).isSome = true ∧
        env_comp_one WEBKIT_DISABLE_COMPOSITING_MODE = none) := by
  decide

/-- Claim C2 as amended: after the run `WEBKIT_DISABLE_COMPOSITING_MODE`
equals `"1"` exactly when the trigger was present and the key absent, and
otherwise it is byte-for-byte what it was before; consequently it holds
`"1"` after the run iff the trigger fired or it already held `"1"`. -/
theorem C2_compositing (e : Env) :
    (resolve_and_apply Platform.linux e WEBKIT_DISABLE_COMPOSITING_MODE =
      if (e P3DM_WEBKIT_NO_COMPOSITING).isSome
          && (e WEBKIT_DISABLE_COMPOSITING_MODE).isNone then some "1"
      else e WEBKIT_DISABLE_COMPOSITING_MODE) ∧
    (resolve_and_apply Platform.linux e WEBKIT_DISABLE_COMPOSITING_MODE =
        some "1" ↔
      ((e P3DM_WEBKIT_NO_COMPOSITING).isSome = true ∧
        e WEBKIT_DISABLE_COMPOSITING_MODE = none) ∨
      e WEBKIT_DISABLE_COMPOSITING_MODE = some "1") := by
  have hmain : resolve_and_apply Platform.linux e
      WEBKIT_DISABLE_COMPOSITING_MODE =
      if (e P3DM_WEBKIT_NO_COMPOSITING).isSome
          && (e WEBKIT_DISABLE_COMPOSITING_MODE).isNone then some "1"
      else e WEBKIT_DISABLE_COMPOSITING_MODE := linux_resolve_compositing e
  refine ⟨hmain, ?_⟩
  rw [hmain]
  cases ht : (e P3DM_WEBKIT_NO_COMPOSITING).isSome <;>
    cases hk : e WEBKIT_DISABLE_COMPOSITING_MODE <;>
      simp [ht, hk]

/-- An environment in which `LIBGL_ALWAYS_SOFTWARE` is already present with
value `"1"` and every other key is absent. -/
def env_gl_one : Env := set_var empty_env LIBGL_ALWAYS_SOFTWARE "1"

/-- Claim C3, counterexample: with `LIBGL_ALWAYS_SOFTWARE` already `"1"`
and the trigger absent, the key still holds `"1"` after the run, yet the
trigger was not present, so the biconditional of the claim fails. -/
theorem C3_software_gl_cex :
    ¬ (resolve_and_apply Platform.linux env_gl_one LIBGL_ALWAYS_SOFTWARE =
          some "1" ↔
        (env_gl_one P3DM_SOFTWARE_GL).isSome = true ∧
        env_gl_one LIBGL_ALWAYS_SOFTWARE = none) := by
  decide

/-- Claim C3 as amended: after the run `LIBGL_ALWAYS_SOFTWARE` equals `"1"`
exactly when the trigger was present and the key absent, and otherwise it is
byte-for-byte what it was before; consequently it holds `"1"` after the run
iff the trigger fired or it already held `"1"`. -/
theorem C3_software_gl (e : Env) :
    (resolve_and_apply Platform.linux e LIBGL_ALWAYS_SOFTWARE =
      if (e P3DM_SOFTWARE_GL).isSome && (e LIBGL_ALWAYS_SOFTWARE).isNone then
        some "1"
      else e LIBGL_ALWAYS_SOFTWARE) ∧
    (resolve_and_apply Platform.linux e LIBGL_ALWAYS_SOFTWARE = some "1" ↔
      ((e P3DM_SOFTWARE_GL).isSome = true ∧
        e LIBGL_ALWAYS_SOFTWARE = none) ∨
      e LIBGL_ALWAYS_SOFTWARE = some "1") := by
  have hmain : resolve_and_apply Platform.linux e LIBGL_ALWAYS_SOFTWARE =
      if (e P3DM_SOFTWARE_GL).isSome && (e LIBGL_ALWAYS_SOFTWARE).isNone then
        some "1"
      else e LIBGL_ALWAYS_SOFTWARE := linux_resolve_software_gl e
  refine ⟨hmain, ?_⟩
  rw [hmain]
  cases ht : (e P3DM_SOFTWARE_GL).isSome <;>
    cases hk : e LIBGL_ALWAYS_SOFTWARE <;>
      simp [ht, hk]

/-- Claim C4: on every platform, a key that is present before the resolver
runs is still present with the same value afterwards — the resolver never
overwrites and never deletes. -/
theorem C4_preserves_present (p : Platform) (e : Env) (k v : String)
    (h : e k = some v) : resolve_and_apply p e k = some v := by
  cases p
  case linux =>
    show linux_resolve e k = some v
    rw [linux_resolve_apply]
    by_cases h1 : k = WEBKIT_DISABLE_DMABUF_RENDERER
    · subst h1
      rw [if_pos rfl, h]
      rfl
    · by_cases h2 : k = WEBKIT_DISABLE_COMPOSITING_MODE
      · subst h2
        rw [if_neg h1, if_pos rfl, h]
        simp
      · by_cases h3 : k = LIBGL_ALWAYS_SOFTWARE
        · subst h3
          rw [if_neg h1, if_neg h2, if_pos rfl, h]
          simp
        · rw [if_neg h1, if_neg h2, if_neg h3, h]
  all_goals exact h

/-- Concrete instance of C4: a pre-set DMABUF value survives the Linux run. -/
theorem C4_preserves_present_w :
    set_var empty_env WEBKIT_DISABLE_DMABUF_RENDERER "0"
        WEBKIT_DISABLE_DMABUF_RENDERER = some "0" ∧
    resolve_and_apply Platform.linux
        (set_var empty_env WEBKIT_DISABLE_DMABUF_RENDERER "0")
        WEBKIT_DISABLE_DMABUF_RENDERER = some "0" :=
  ⟨by decide,
    C4_preserves_present Platform.linux
      (set_var empty_env WEBKIT_DISABLE_DMABUF_RENDERER "0")
      WEBKIT_DISABLE_DMABUF_RENDERER "0" (by decide)⟩

/-- Claim C5: on every platform other than Linux the resolver leaves the
environment byte-for-byte identical. -/
theorem C5_non_linux_noop (p : Platform) (e : Env)
    (h : p ≠ Platform.linux) : resolve_and_apply p e = e := by
  cases p
  case linux => exact absurd rfl h
  all_goals rfl

/-- Concrete instance of C5 on Windows with the empty environment. -/
theorem C5_non_linux_noop_w :
    Platform.windows ≠ Platform.linux ∧
    resolve_and_apply Platform.windows empty_env = empty_env :=
  ⟨by decide, C5_non_linux_noop Platform.windows empty_env (by decide)⟩

/-- A second Linux pass changes nothing: after one pass the DMABUF key is
present, the triggers are untouched, and each opt-in key is present
whenever its trigger is, so every condition of the second pass is false. -/
theorem linux_resolve_idem (e : Env) :
    linux_resolve (linux_resolve e) = linux_resolve e := by
  funext k
  rw [linux_resolve_apply (linux_resolve e) k]
  by_cases h1 : k = WEBKIT_DISABLE_DMABUF_RENDERER
  · subst h1
    rw [if_pos rfl, linux_resolve_dmabuf]
    rfl
  · by_cases h2 : k = WEBKIT_DISABLE_COMPOSITING_MODE
    · subst h2
      rw [if_neg h1, if_pos rfl, linux_resolve_trigger_nc,
        linux_resolve_compositing]
      cases ht : (e P3DM_WEBKIT_NO_COMPOSITING).isSome <;>
        cases hk : e WEBKIT_DISABLE_COMPOSITING_MODE <;> simp [ht, hk]
    · by_cases h3 : k = LIBGL_ALWAYS_SOFTWARE
      · subst h3
        rw [if_neg h1, if_neg h2, if_pos rfl, linux_resolve_trigger_gl,
          linux_resolve_software_gl]
        cases ht : (e P3DM_SOFTWARE_GL).isSome <;>
          cases hk : e LIBGL_ALWAYS_SOFTWARE <;> simp [ht, hk]
      · rw [if_neg h1, if_neg h2, if_neg h3]

/-- Claim C6: the resolver is idempotent on every platform — running it
twice yields the same final environment as running it once. -/
theorem C6_idempotent (p : Platform) (e : Env) :
    resolve_and_apply p (resolve_and_apply p e) = resolve_and_apply p e := by
  cases p
  case linux => exact linux_resolve_idem e
  all_goals rfl

/-- Claim C7, counterexample: starting from the empty environment, one
Linux run sets the DMABUF key but leaves `WEBKIT_DISABLE_COMPOSITING_MODE`
absent (its trigger was absent), so not all three keys are present. -/
theorem C7_all_present_cex :
    (resolve_and_apply Platform.linux empty_env
        WEBKIT_DISABLE_DMABUF_RENDERER).isSome = true ∧
    resolve_and_apply Platform.linux empty_env
        WEBKIT_DISABLE_COMPOSITING_MODE = none := by
  decide

/-- Claim C7 as amended: after one Linux run the DMABUF key is always
present; each opt-in key is present iff it was already present or its
trigger was present; and in every case a second run changes nothing. -/
theorem C7_after_one_run (e : Env) :
    (resolve_and_apply Platform.linux e
        WEBKIT_DISABLE_DMABUF_RENDERER).isSome = true ∧
    ((resolve_and_apply Platform.linux e
          WEBKIT_DISABLE_COMPOSITING_MODE).isSome = true ↔
      (e WEBKIT_DISABLE_COMPOSITING_MODE).isSome = true ∨
      (e P3DM_WEBKIT_NO_COMPOSITING).isSome = true) ∧
    ((resolve_and_apply Platform.linux e LIBGL_ALWAYS_SOFTWARE).isSome =
        true ↔
      (e LIBGL_ALWAYS_SOFTWARE).isSome = true ∨
      (e P3DM_SOFTWARE_GL).isSome = true) ∧
    resolve_and_apply Platform.linux (resolve_and_apply Platform.linux e) =
      resolve_and_apply Platform.linux e := by
  refine ⟨?_, ?_, ?_, linux_resolve_idem e⟩
  · show (linux_resolve e WEBKIT_DISABLE_DMABUF_RENDERER).isSome = true
    rw [linux_resolve_dmabuf]
    rfl
  · show (linux_resolve e WEBKIT_DISABLE_COMPOSITING_MODE).isSome = true ↔ _
    rw [linux_resolve_compositing]
    cases ht : (e P3DM_WEBKIT_NO_COMPOSITING).isSome <;>
      cases hk : e WEBKIT_DISABLE_COMPOSITING_MODE <;> simp [ht, hk]
  · show (linux_resolve e LIBGL_ALWAYS_SOFTWARE).isSome = true ↔ _
    rw [linux_resolve_software_gl]
    cases ht : (e P3DM_SOFTWARE_GL).isSome <;>
      cases hk : e LIBGL_ALWAYS_SOFTWARE <;> simp [ht, hk]

/-- The DMABUF block commutes with the compositing block: they touch
disjoint keys. -/
theorem comm_dmabuf_compositing (e : Env) :
    step_compositing (step_dmabuf e) = step_dmabuf (step_compositing e) := by
  funext k
  by_cases h1 : k = WEBKIT_DISABLE_DMABUF_RENDERER
  · subst h1
    rw [step_compositing_other (step_dmabuf e) _ (by decide), step_dmabuf_self,
      step_dmabuf_self, step_compositing_other e _ (by decide)]
  · by_cases h2 : k = WEBKIT_DISABLE_COMPOSITING_MODE
    · subst h2
      rw [step_compositing_self (step_dmabuf e),
        step_dmabuf_other e _ (show P3DM_WEBKIT_NO_COMPOSITING ≠ _ by decide),
        step_dmabuf_other e _ (by decide),
        step_dmabuf_other (step_compositing e) _ (by decide),
        step_compositing_self e]
    · rw [step_compositing_other _ _ h2, step_dmabuf_other _ _ h1,
        step_dmabuf_other _ _ h1, step_compositing_other _ _ h2]

/-- The DMABUF block commutes with the software-GL block: they touch
disjoint keys. -/
theorem comm_dmabuf_software_gl (e : Env) :
    step_software_gl (step_dmabuf e) = step_dmabuf (step_software_gl e) := by
  funext k
  by_cases h1 : k = WEBKIT_DISABLE_DMABUF_RENDERER
  · subst h1
    rw [step_software_gl_other (step_dmabuf e) _ (by decide), step_dmabuf_self,
      step_dmabuf_self, step_software_gl_other e _ (by decide)]
  · by_cases h3 : k = LIBGL_ALWAYS_SOFTWARE
    · subst h3
      rw [step_software_gl_self (step_dmabuf e),
        step_dmabuf_other e _ (show P3DM_SOFTWARE_GL ≠ _ by decide),
        step_dmabuf_other e _ (by decide),
        step_dmabuf_other (step_software_gl e) _ (by decide),
        step_software_gl_self e]
    · rw [step_software_gl_other _ _ h3, step_dmabuf_other _ _ h1,
        step_dmabuf_other _ _ h1, step_software_gl_other _ _ h3]

/-- The compositing block commutes with the software-GL block: neither
reads a key the other writes. -/
theorem comm_compositing_software_gl (e : Env) :
    step_software_gl (step_compositing e) =
      step_compositing (step_software_gl e) := by
  funext k
  by_cases h2 : k = WEBKIT_DISABLE_COMPOSITING_MODE
  · subst h2
    rw [step_software_gl_other (step_compositing e) _ (by decide),
      step_compositing_self e, step_compositing_self (step_software_gl e),
      step_software_gl_other e _ (show P3DM_WEBKIT_NO_COMPOSITING ≠ _ by decide),
      step_software_gl_other e _ (by decide)]
  · by_cases h3 : k = LIBGL_ALWAYS_SOFTWARE
    · subst h3
      rw [step_software_gl_self (step_compositing e),
        step_compositing_other e _ (show P3DM_SOFTWARE_GL ≠ _ by decide),
        step_compositing_other e _ (by decide),
        step_compositing_other (step_software_gl e) _ (by decide),
        step_software_gl_self e]
    · rw [step_software_gl_other _ _ h3, step_compositing_other _ _ h2,
        step_compositing_other _ _ h2, step_software_gl_other _ _ h3]

/-- Claim C8: the three conditional blocks commute — every one of the six
evaluation orders produces the same final environment as the source order
`dmabuf; compositing; software_gl` (that is, `linux_resolve`). -/
theorem C8_order_insensitive (e : Env) :
    step_compositing (step_software_gl (step_dmabuf e)) = linux_resolve e ∧
    step_software_gl (step_dmabuf (step_compositing e)) = linux_resolve e ∧
    step_dmabuf (step_software_gl (step_compositing e)) = linux_resolve e ∧
    step_compositing (step_dmabuf (step_software_gl e)) = linux_resolve e ∧
    step_dmabuf (step_compositing (step_software_gl e)) = linux_resolve e := by
  unfold linux_resolve
  refine ⟨?_, ?_, ?_, ?_, ?_⟩ <;>
    simp only [comm_dmabuf_compositing, comm_dmabuf_software_gl,
      comm_compositing_software_gl]

/-- Claim C9: on every platform the two opt-in trigger keys are read-only —
their presence and value after the run are exactly what they were before. -/
theorem C9_triggers_readonly (p : Platform) (e : Env) :
    resolve_and_apply p e P3DM_WEBKIT_NO_COMPOSITING =
      e P3DM_WEBKIT_NO_COMPOSITING ∧
    resolve_and_apply p e P3DM_SOFTWARE_GL = e P3DM_SOFTWARE_GL := by
  cases p
  case linux => exact ⟨linux_resolve_trigger_nc e, linux_resolve_trigger_gl e⟩
  all_goals exact ⟨rfl, rfl⟩

/-- Claim C10: the triggers are tested for presence only — any value,
including `"0"` or the empty string, makes the corresponding opt-in key be
set to `"1"` when that key is absent. -/
theorem C10_presence_only (e : Env) (v : String) :
    (e P3DM_WEBKIT_NO_COMPOSITING = some v →
      e WEBKIT_DISABLE_COMPOSITING_MODE = none →
      resolve_and_apply Platform.linux e WEBKIT_DISABLE_COMPOSITING_MODE =
        some "1") ∧
    (e P3DM_SOFTWARE_GL = some v →
      e LIBGL_ALWAYS_SOFTWARE = none →
      resolve_and_apply Platform.linux e LIBGL_ALWAYS_SOFTWARE = some "1") := by
  constructor
  · intro h1 h2
    show linux_resolve e WEBKIT_DISABLE_COMPOSITING_MODE = some "1"
    rw [linux_resolve_compositing]
    simp [h1, h2]
  · intro h1 h2
    show linux_resolve e LIBGL_ALWAYS_SOFTWARE = some "1"
    rw [linux_resolve_software_gl]
    simp [h1, h2]

/-- An environment in which both triggers carry the would-be opt-out value
`"0"` and everything else is absent. -/
def env_triggers_zero : Env :=
  set_var (set_var empty_env P3DM_WEBKIT_NO_COMPOSITING "0") P3DM_SOFTWARE_GL "0"

/-- Concrete instance of C10: triggers set to `"0"` still force both opt-in
keys to `"1"`. -/
theorem C10_presence_only_w :
    resolve_and_apply Platform.linux env_triggers_zero
        WEBKIT_DISABLE_COMPOSITING_MODE = some "1" ∧
    resolve_and_apply Platform.linux env_triggers_zero LIBGL_ALWAYS_SOFTWARE =
      some "1" :=
  ⟨(C10_presence_only env_triggers_zero "0").1 (by decide) (by decide),
    (C10_presence_only env_triggers_zero "0").2 (by decide) (by decide)⟩
